import Mathlib

/-!
Shallow embedding of the HealthSaga client (`app/zen-health-tracker.tsx`) and
server (`server/index.js`) logic: daily record scoping, metrics history,
mindfulness sequencing, the snapshot synchronization engine, and the remote
snapshot/reminder endpoints.  Each definition is translated from the
corresponding source function; wall-clock reads (`new Date()`, `getToday()`)
and network outcomes are passed in as explicit parameters.
-/

/-! ## JavaScript primitives -/

/-- Code-unit lexicographic comparison, the semantics of the JavaScript
string relational operators used in `syncWithServer`
(`serverUpdatedAt > localUpdatedAt`). -/
def charListLt : List Char → List Char → Bool
  | [], [] => false
  | [], _ :: _ => true
  | _ :: _, [] => false
  | a :: as, b :: bs =>
    if a.toNat < b.toNat then true
    else if b.toNat < a.toNat then false
    else charListLt as bs

/-- JavaScript `a < b` on strings. -/
def jsStrLt (a b : String) : Bool := charListLt a.data b.data

/-- JavaScript `String.prototype.trim`: strip whitespace from both ends. -/
def jsTrim (s : String) : String :=
  ⟨((s.data.dropWhile Char.isWhitespace).reverse.dropWhile Char.isWhitespace).reverse⟩

/-- JavaScript `String.prototype.split` with a single-character separator. -/
def splitChar (sep : Char) : List Char → List (List Char)
  | [] => [[]]
  | c :: rest =>
    let groups := splitChar sep rest
    if c = sep then [] :: groups
    else
      match groups with
      | [] => [[c]]
      | g :: gs => (c :: g) :: gs

/-- JavaScript `parseInt` on the strings this program feeds it: an initial
run of decimal digits, `NaN` (`none`) when there is none. -/
def jsParseInt (s : List Char) : Option Nat :=
  let ds := s.takeWhile Char.isDigit
  if ds = [] then none
  else some (ds.foldl (fun n c => n * 10 + (c.toNat - 48)) 0)

/-- JavaScript `Math.round`: round half towards positive infinity. -/
def jsRound (q : ℚ) : Int := Int.floor (q + 1 / 2)

/-! ## Mindfulness sequencer (`getMindfulnessSlot`, `buildMindfulnessQueue`,
the regeneration effect and the "Show another exercise" handler) -/

inductive Slot
  | morning
  | evening
deriving DecidableEq, Repr

/-- `getMindfulnessSlot`: 05:00–11:59 is `morning`, every other hour `evening`. -/
def getMindfulnessSlot (hour : Nat) : Slot :=
  if 5 ≤ hour ∧ hour < 12 then .morning else .evening

/-- The fields of `MeditationExercise` the sequencing logic reads. -/
structure Exercise where
  id : String
  timeOfDay : List String
deriving DecidableEq, Repr

/-- `getMindfulnessPool`: items tagged with the slot or `anytime`, falling
back to the whole set when the filter is empty. -/
def getMindfulnessPool (exercises : List Exercise) (slot : String) : List Exercise :=
  let slotMatches := exercises.filter fun e => e.timeOfDay.contains slot || e.timeOfDay.contains "anytime"
  if slotMatches.length > 0 then slotMatches else exercises

/-- One step of the in-place Fisher–Yates loop body
`[ids[i], ids[swapIndex]] = [ids[swapIndex], ids[i]]`. -/
def swapAt (l : List String) (i j : Nat) : List String :=
  match l[i]?, l[j]? with
  | some a, some b => (l.set i b).set j a
  | _, _ => l

/-- The Fisher–Yates loop of `buildMindfulnessQueue`, iterating the swap over
the given descending index list; `rand i` models
`Math.floor(Math.random() * (i + 1))`. -/
def fySteps (rand : Nat → Nat) : List Nat → List String → List String
  | [], l => l
  | i :: rest, l => fySteps rand rest (swapAt l i (rand i))

/-- `buildMindfulnessQueue`: shuffle the pool's ids with Fisher–Yates,
running `i` from `length - 1` down to `1`. -/
def buildMindfulnessQueue (pool : List Exercise) (rand : Nat → Nat) : List String :=
  fySteps rand ((List.range pool.length).reverse.dropLast) (pool.map (fun e => e.id))

structure MindState where
  date : String
  slot : Slot
  remainingIds : List String
  currentId : String
deriving DecidableEq, Repr

/-- The queue-regeneration effect: `const [firstId, ...rest] = queue;
setMindfulnessState({date, slot, remainingIds: rest, currentId: firstId ?? ''})`. -/
def refreshMindfulness (pool : List Exercise) (rand : Nat → Nat)
    (today : String) (slot : Slot) : MindState :=
  let queue := buildMindfulnessQueue pool rand
  { date := today, slot := slot, remainingIds := queue.tail, currentId := queue.headD "" }

/-- The "Show another exercise" click handler: pop the next id off
`remainingIds`, a no-op when the queue is exhausted. -/
def advanceMindfulness (prev : MindState) : MindState :=
  match prev.remainingIds with
  | [] => prev
  | nextId :: rest => { prev with remainingIds := rest, currentId := nextId }

/-! ## Daily record (`defaultTodayData`, `loadTodayData`) -/

structure Walk where
  time : String
  duration : String
deriving DecidableEq, Repr

structure TodayData where
  supplements : List (String × List (String × Bool))
  hydration : Nat
  meals : List (String × Bool)
  walks : List Walk
  morningWater : Bool
  meditationCount : Int
deriving DecidableEq, Repr

/-- `defaultTodayData`: all counters zero, no walks, nothing checked. -/
def defaultTodayData : TodayData :=
  { supplements := [("breakfast", [("multivitamin", false), ("vitaminD", false)]),
                    ("dinner", [("omega3", false), ("magnesium", false)])],
    hydration := 0,
    meals := [("breakfast", false), ("lunch", false), ("dinner", false)],
    walks := [],
    morningWater := false,
    meditationCount := 0 }

/-- The persisted `healthsaga-today` blob: `{date, data}`. -/
structure StoredToday where
  date : String
  data : TodayData
deriving DecidableEq, Repr

/-- `loadTodayData`: the stored record's `data` when its `date` is today,
the fresh default otherwise (including a missing or unparsable blob,
modelled as `none`). -/
def loadTodayData (stored : Option StoredToday) (today : String) : TodayData :=
  match stored with
  | some st => if st.date = today then st.data else defaultTodayData
  | none => defaultTodayData

/-! ## Metrics history (`handleSaveMetrics`) -/

structure BloodPressure where
  systolic : Option String
  diastolic : Option String
deriving DecidableEq, Repr

structure MetricsEntry where
  recordedAt : String
  bloodPressure : Option BloodPressure
  heartRate : Option String
  weight : Option String
  respiratoryRate : Option String
deriving DecidableEq, Repr

/-- The in-progress metrics form (`healthsaga-metrics`). -/
structure BPForm where
  systolic : String
  diastolic : String
deriving DecidableEq, Repr

structure MetricsForm where
  bloodPressure : BPForm
  heartRate : String
  weight : String
  respiratoryRate : String
deriving DecidableEq, Repr

/-- `value.trim() || undefined`. -/
def trimOpt (s : String) : Option String :=
  let t := jsTrim s
  if t = "" then none else some t

/-- The empty form `handleSaveMetrics` resets to. -/
def emptyMetricsForm : MetricsForm :=
  { bloodPressure := { systolic := "", diastolic := "" },
    heartRate := "", weight := "", respiratoryRate := "" }

/-- The entry `handleSaveMetrics` builds from the form at time `now`. -/
def metricsEntryOfForm (metrics : MetricsForm) (now : String) : MetricsEntry :=
  { recordedAt := now,
    bloodPressure := some { systolic := trimOpt metrics.bloodPressure.systolic,
                            diastolic := trimOpt metrics.bloodPressure.diastolic },
    heartRate := trimOpt metrics.heartRate,
    weight := trimOpt metrics.weight,
    respiratoryRate := trimOpt metrics.respiratoryRate }

/-- `hasValues`: `Boolean(systolic || diastolic || heartRate || weight ||
respiratoryRate)` on the built entry. -/
def entryHasValues (entry : MetricsEntry) : Bool :=
  (entry.bloodPressure.bind (fun bp => bp.systolic)).isSome ||
  (entry.bloodPressure.bind (fun bp => bp.diastolic)).isSome ||
  entry.heartRate.isSome || entry.weight.isSome || entry.respiratoryRate.isSome

/-- `handleSaveMetrics`: returns the new history and the reset form.
`setMetricsHistory(prev => [entry, ...prev].slice(0, 50))` runs only when
`hasValues` holds. -/
def handleSaveMetrics (metrics : MetricsForm) (now : String)
    (prev : List MetricsEntry) : List MetricsEntry × MetricsForm :=
  let entry := metricsEntryOfForm metrics now
  (if entryHasValues entry then (entry :: prev).take 50 else prev, emptyMetricsForm)

/-! ## Trend statistics (`getTrendStats`) -/

inductive Metric
  | systolic
  | diastolic
  | heartRate
  | weight
  | respiratoryRate
deriving DecidableEq, Repr

/-- A stat slot: a number, or the `'--'` sentinel. -/
inductive StatVal
  | sentinel
  | val (q : ℚ)
deriving DecidableEq, Repr

structure TrendStats where
  latest : StatVal
  avg : StatVal
  trend : String
  count : Nat
  min : StatVal
  max : StatVal
deriving DecidableEq, Repr

/-- The "no data" result `{latest: '--', avg: '--', trend: '→', count: 0,
min: '--', max: '--'}`. -/
def noDataStats : TrendStats :=
  { latest := .sentinel, avg := .sentinel, trend := "→", count := 0,
    min := .sentinel, max := .sentinel }

/-- The per-metric field selection inside `getTrendStats`. -/
def metricValue (m : Metric) (e : MetricsEntry) : Option String :=
  match m with
  | .systolic => e.bloodPressure.bind (fun bp => bp.systolic)
  | .diastolic => e.bloodPressure.bind (fun bp => bp.diastolic)
  | .heartRate => e.heartRate
  | .weight => e.weight
  | .respiratoryRate => e.respiratoryRate

/-- `metricsHistory.filter(entry => new Date(entry.recordedAt) >= startDate)`;
`timeOf` models `Date` parsing of the stored timestamps. -/
def filteredEntries (history : List MetricsEntry) (timeOf : String → ℚ)
    (startDate : ℚ) : List MetricsEntry :=
  history.filter fun e => startDate ≤ timeOf e.recordedAt

/-- `.map(entry => val ? Number(val) : null).filter(v => v !== null)`;
`num` models JavaScript `Number` on the stored value strings. -/
def extractedValues (history : List MetricsEntry) (m : Metric)
    (timeOf : String → ℚ) (num : String → ℚ) (startDate : ℚ) : List ℚ :=
  (filteredEntries history timeOf startDate).filterMap fun e =>
    match metricValue m e with
    | some v => if v = "" then none else some (num v)
    | none => none

/-- `getTrendStats` for one metric over the window starting at `startDate`. -/
def getTrendStats (history : List MetricsEntry) (m : Metric)
    (timeOf : String → ℚ) (num : String → ℚ) (startDate : ℚ) : TrendStats :=
  let filtered := filteredEntries history timeOf startDate
  if filtered.length = 0 then noDataStats
  else
    match extractedValues history m timeOf num startDate with
    | [] => noDataStats
    | v :: vs =>
      let latest := v
      let oldest := vs.getLastD v
      let avg := (jsRound ((((v :: vs).foldl (fun a b => a + b) 0) / (v :: vs).length) * 10) : ℚ) / 10
      let mn := vs.foldl min v
      let mx := vs.foldl max v
      let trend := if oldest < latest then "↑" else if latest < oldest then "↓" else "→"
      { latest := .val latest, avg := .val avg, trend := trend,
        count := (v :: vs).length, min := .val mn, max := .val mx }

/-! ## Synchronization engine (`buildSnapshot`, `applySnapshot`,
`pushSnapshot`, `syncWithServer`) -/

/-- A walk-reminder toggle row (`healthsaga-reminders`). -/
structure ReminderToggle where
  time : String
  label : String
  enabled : Bool
deriving DecidableEq, Repr

structure SyncMeta where
  updatedAt : String
  lastSyncedAt : String
deriving DecidableEq, Repr

/-- `SnapshotPayload`: every component optional, as in the TypeScript type. -/
structure SnapshotPayload where
  today : Option StoredToday
  reminders : Option (List ReminderToggle)
  mindfulness : Option MindState
  metricsHistory : Option (List MetricsEntry)
deriving DecidableEq, Repr

inductive SyncStatus
  | idle
  | syncing
  | error
  | success
deriving DecidableEq, Repr

/-- The client state the sync engine reads and writes: the persisted
`healthsaga-today` blob, the in-memory stores, and the sync metadata. -/
structure LocalState where
  storedToday : Option StoredToday
  todayData : TodayData
  walkReminders : List ReminderToggle
  mindfulness : MindState
  metricsHistory : List MetricsEntry
  syncMeta : SyncMeta
  syncStatus : SyncStatus
  syncError : String
deriving DecidableEq, Repr

/-- `buildSnapshot`: the stored today blob when present, else
`{date: getToday(), data: todayData}`, plus the three other stores. -/
def buildSnapshot (s : LocalState) (today : String) : SnapshotPayload :=
  { today := some (s.storedToday.getD { date := today, data := s.todayData }),
    reminders := some s.walkReminders,
    mindfulness := some s.mindfulness,
    metricsHistory := some s.metricsHistory }

/-- `applySnapshot(snapshot, updatedAt)`: overwrite today only when the
snapshot's `today.date` equals the current date (`setTodayData` also
re-persists the blob under today's date), each other component only when
present, then set `updatedAt` to the given stamp and `lastSyncedAt` to the
current time. -/
def applySnapshot (snapshot : SnapshotPayload) (updatedAt : String)
    (now today : String) (s : LocalState) : LocalState :=
  let s1 :=
    match snapshot.today with
    | some t =>
      if t.date = today then
        { s with todayData := t.data, storedToday := some { date := today, data := t.data } }
      else s
    | none => s
  let s2 :=
    match snapshot.reminders with
    | some r => { s1 with walkReminders := r }
    | none => s1
  let s3 :=
    match snapshot.metricsHistory with
    | some mh => { s2 with metricsHistory := mh }
    | none => s2
  let s4 :=
    match snapshot.mindfulness with
    | some mi => { s3 with mindfulness := mi }
    | none => s3
  { s4 with syncMeta := { updatedAt := updatedAt, lastSyncedAt := now } }

/-- The body of a `POST /api/snapshot` request. -/
structure PostReq where
  updatedAt : String
  data : SnapshotPayload
deriving DecidableEq, Repr

/-- Outcome of the `POST` fetch inside `pushSnapshot`: a resolved response
carrying its HTTP status — which the code never inspects (`response.ok` is
not checked on the `POST`) — or a network rejection carrying the thrown
error's message. -/
inductive PushResult
  | ok (status : Nat)
  | fail (msg : String)
deriving DecidableEq, Repr

/-- Result of a sync run: the new client state, and the successfully
delivered `POST /api/snapshot` request, if any. -/
structure SyncOutcome where
  state : LocalState
  posted : Option PostReq
deriving DecidableEq, Repr

/-- `pushSnapshot` followed by `setSyncStatus('success')`, as performed on
every push path of `syncWithServer`; on a network rejection the `catch`
block records the error instead and `setSyncMeta` never runs.  A resolved
response counts as delivery whatever its HTTP status, because the code
discards the `POST` response without checking it. -/
def pushSnapshot (s : LocalState) (pr : PushResult) (now today : String) : SyncOutcome :=
  let updatedAt := if s.syncMeta.updatedAt = "" then now else s.syncMeta.updatedAt
  let req : PostReq := { updatedAt := updatedAt, data := buildSnapshot s today }
  match pr with
  | .ok _ =>
    { state := { s with syncMeta := { updatedAt := updatedAt, lastSyncedAt := now },
                        syncStatus := .success },
      posted := some req }
  | .fail msg =>
    { state := { s with syncStatus := .error, syncError := msg }, posted := none }

/-- Outcome of the `GET /api/snapshot` fetch: a network rejection with the
thrown error's message, a response with HTTP status `code` that is not ok,
or an ok response whose parsed body has `updatedAt` (a string, or `none`
for any non-string value) and `data`. -/
inductive FetchResult
  | netError (msg : String)
  | bad (code : Nat)
  | ok (updatedAt : Option String) (data : Option SnapshotPayload)
deriving DecidableEq, Repr

/-- `syncWithServer`: fetch the remote snapshot and reconcile.  `now` is the
wall clock (`new Date().toISOString()`), `today` the current date
(`getToday()`), `pr` the outcome of the `POST` on the push paths. -/
def syncWithServer (s : LocalState) (fr : FetchResult) (pr : PushResult)
    (now today : String) : SyncOutcome :=
  let s0 := { s with syncStatus := SyncStatus.syncing, syncError := "" }
  match fr with
  | .netError msg =>
    { state := { s0 with syncStatus := .error, syncError := msg }, posted := none }
  | .bad code =>
    if code = 404 then pushSnapshot s0 pr now today
    else
      { state := { s0 with syncStatus := .error,
                           syncError := "Snapshot fetch failed (" ++ toString code ++ ")" },
        posted := none }
  | .ok updatedAt data =>
    let serverUpdatedAt := updatedAt.getD ""
    let localUpdatedAt := s.syncMeta.updatedAt
    match data with
    | none => pushSnapshot s0 pr now today
    | some snapshot =>
      if localUpdatedAt = "" ∧ serverUpdatedAt ≠ "" then
        { state := { applySnapshot snapshot serverUpdatedAt now today s0 with
                       syncStatus := .success },
          posted := none }
      else if serverUpdatedAt = "" ∨ (localUpdatedAt = "" ∨ jsStrLt localUpdatedAt serverUpdatedAt) then
        { state := { applySnapshot snapshot
                       (if serverUpdatedAt = "" then now else serverUpdatedAt)
                       now today s0 with syncStatus := .success },
          posted := none }
      else pushSnapshot s0 pr now today

/-! ## Snapshot service (`server/index.js`) -/

/-- The JSON values a request body field can hold, with JavaScript
truthiness; `obj` stands for any object or array payload. -/
inductive JsVal
  | undef
  | null
  | str (s : String)
  | num (n : Int)
  | boolean (b : Bool)
  | obj (snapshot : SnapshotPayload)
deriving DecidableEq, Repr

/-- JavaScript truthiness of a body field. -/
def truthy : JsVal → Bool
  | .undef => false
  | .null => false
  | .str s => s ≠ ""
  | .num n => n ≠ 0
  | .boolean b => b
  | .obj _ => true

/-- The single durable `snapshot` row. -/
structure SnapRow where
  payload : JsVal
  updated_at : String
deriving DecidableEq, Repr

/-- The stamp choice of `POST /api/snapshot`:
`typeof updatedAt === 'string' && updatedAt ? updatedAt : new Date().toISOString()`. -/
def snapshotStamp (updatedAt : JsVal) (now : String) : String :=
  match updatedAt with
  | .str s => if s ≠ "" then s else now
  | _ => now

/-- `POST /api/snapshot`: reject falsy `data` with 400 leaving the row
untouched; otherwise upsert the row with the request's `updatedAt` when it
is a non-empty string, substituting `new Date().toISOString()` (`now`)
otherwise, and echo the stored stamp. -/
def postSnapshot (row : Option SnapRow) (updatedAt data : JsVal) (now : String) :
    Option SnapRow × Nat × Option String :=
  if truthy data = false then (row, 400, none)
  else
    (some { payload := data, updated_at := snapshotStamp updatedAt now }, 200,
     some (snapshotStamp updatedAt now))

/-! ## Reminder due computation (`GET /api/reminders`) -/

/-- A seeded reminder-definition row. -/
structure SeedReminder where
  type : String
  time : String
  enabledByDefault : Nat
  description : String
deriving DecidableEq, Repr

/-- The rows seeded into the `reminders` table when it is empty. -/
def defaultReminders : List SeedReminder :=
  [{ type := "walk", time := "10:00", enabledByDefault := 1, description := "Morning walk" },
   { type := "walk", time := "14:00", enabledByDefault := 1, description := "Afternoon walk" },
   { type := "walk", time := "16:30", enabledByDefault := 1, description := "Evening walk" },
   { type := "hydration", time := "08:00", enabledByDefault := 1, description := "Drink water" },
   { type := "hydration", time := "10:00", enabledByDefault := 1, description := "Drink water" },
   { type := "hydration", time := "12:00", enabledByDefault := 1, description := "Drink water" },
   { type := "hydration", time := "14:00", enabledByDefault := 1, description := "Drink water" },
   { type := "hydration", time := "16:00", enabledByDefault := 1, description := "Drink water" },
   { type := "hydration", time := "18:00", enabledByDefault := 1, description := "Drink water" },
   { type := "metrics", time := "20:00", enabledByDefault := 1, description := "Record health metrics" },
   { type := "mindfulness", time := "06:00", enabledByDefault := 1, description := "Morning mindfulness" },
   { type := "mindfulness", time := "21:00", enabledByDefault := 1, description := "Evening mindfulness" }]

/-- `const [rh, rm] = reminder.time.split(':')` followed by
`parseInt(rh) * 60 + parseInt(rm)`; `none` when either part is `NaN`. -/
def reminderMinutes (time : String) : Option Nat :=
  match splitChar ':' time.data with
  | h :: m :: _ =>
    match jsParseInt h, jsParseInt m with
    | some hh, some mm => some (hh * 60 + mm)
    | _, _ => none
  | _ => none

/-- The due computation of `GET /api/reminders`:
`Math.abs(currentMinutes - reminderMinutes) <= 5`, where `currentMinutes`
is the current minute of day; a `NaN` reminder time is never due. -/
def reminderDue (time : String) (currentMinutes : Nat) : Bool :=
  match reminderMinutes time with
  | some rm => ((currentMinutes : Int) - rm).natAbs ≤ 5
  | none => false

/-- Modelled from the spec: the minimal circular distance in minutes of day
between two times, the quantity the spec's due-window formula
(`|minutesSince(reminder.time) mod 1440| <= 5`, "minimal circular
distance") is stated over.  The code under `server/index.js` computes a
plain absolute difference instead; this definition exists to compare the
two. -/
def specCircularDistance (a b : Nat) : Nat :=
  let d := ((a : Int) - b).natAbs % 1440
  min d (1440 - d)

/-- The components of the client state a sync run may not corrupt: the
persisted today blob, the in-memory today record, the reminder toggles,
the mindfulness state, the metrics history and the sync metadata. -/
def dataUnchanged (a b : LocalState) : Prop :=
  a.storedToday = b.storedToday ∧ a.todayData = b.todayData ∧
  a.walkReminders = b.walkReminders ∧ a.mindfulness = b.mindfulness ∧
  a.metricsHistory = b.metricsHistory ∧ a.syncMeta = b.syncMeta

instance (a b : LocalState) : Decidable (dataUnchanged a b) := by
  unfold dataUnchanged; infer_instance

/-- A sample client state used to instantiate the sync theorems. -/
def sampleState : LocalState :=
  { storedToday := some { date := "2024-01-05", data := defaultTodayData },
    todayData := defaultTodayData,
    walkReminders := [{ time := "10:00 AM", label := "Morning walk", enabled := true }],
    mindfulness := { date := "2024-01-05", slot := .morning, remainingIds := ["b"], currentId := "a" },
    metricsHistory := [],
    syncMeta := { updatedAt := "2024-01-05T08:00:00.000Z", lastSyncedAt := "" },
    syncStatus := .idle,
    syncError := "" }

/-- A sample remote snapshot, differing from `sampleState` in every component. -/
def sampleRemoteSnapshot : SnapshotPayload :=
  { today := some { date := "2024-01-05", data := { defaultTodayData with hydration := 24 } },
    reminders := some [{ time := "2:00 PM", label := "Afternoon walk", enabled := false }],
    mindfulness := some { date := "2024-01-05", slot := .evening, remainingIds := [], currentId := "c" },
    metricsHistory := some [] }

/-- A sample remote snapshot whose `today` is for a past calendar date. -/
def staleRemoteSnapshot : SnapshotPayload :=
  { today := some { date := "2024-01-01", data := { defaultTodayData with hydration := 16 } },
    reminders := some [{ time := "2:00 PM", label := "Afternoon walk", enabled := false }],
    mindfulness := some { date := "2024-01-01", slot := .evening, remainingIds := [], currentId := "c" },
    metricsHistory := some [] }

/-! ## Helper lemmas -/

theorem cons_set_perm {α : Type} (x b : α) :
    ∀ (xs : List α) (k : Nat), xs[k]? = some b → (b :: xs.set k x).Perm (x :: xs)
  | [], k, h => by simp at h
  | y :: ys, 0, h => by
    simp only [List.getElem?_cons_zero, Option.some.injEq] at h
    subst h
    simpa using List.Perm.swap x y ys
  | y :: ys, k + 1, h => by
    simp only [List.getElem?_cons_succ] at h
    have ih := cons_set_perm x b ys k h
    have step1 : (b :: y :: ys.set k x).Perm (y :: b :: ys.set k x) := List.Perm.swap y b _
    have step2 : (y :: b :: ys.set k x).Perm (y :: x :: ys) := ih.cons y
    have step3 : (y :: x :: ys).Perm (x :: y :: ys) := List.Perm.swap x y ys
    simpa using (step1.trans step2).trans step3

theorem set_set_perm {α : Type} :
    ∀ (l : List α) (i j : Nat) (a b : α), l[i]? = some a → l[j]? = some b →
      ((l.set i b).set j a).Perm l
  | [], _, _, _, _, h1, _ => by simp at h1
  | x :: xs, 0, 0, a, b, h1, h2 => by
    simp only [List.getElem?_cons_zero, Option.some.injEq] at h1 h2
    subst h1; subst h2
    simp
  | x :: xs, 0, j + 1, a, b, h1, h2 => by
    simp only [List.getElem?_cons_zero, Option.some.injEq] at h1
    simp only [List.getElem?_cons_succ] at h2
    subst h1
    simpa using cons_set_perm x b xs j h2
  | x :: xs, i + 1, 0, a, b, h1, h2 => by
    simp only [List.getElem?_cons_succ] at h1
    simp only [List.getElem?_cons_zero, Option.some.injEq] at h2
    subst h2
    simpa using cons_set_perm x a xs i h1
  | x :: xs, i + 1, j + 1, a, b, h1, h2 => by
    simp only [List.getElem?_cons_succ] at h1 h2
    simpa using (set_set_perm xs i j a b h1 h2).cons x

theorem swapAt_perm (l : List String) (i j : Nat) : (swapAt l i j).Perm l := by
  unfold swapAt
  split
  case _ a b h1 h2 => exact set_set_perm l i j a b h1 h2
  case _ => exact List.Perm.refl l

theorem fySteps_perm (rand : Nat → Nat) :
    ∀ (idxs : List Nat) (l : List String), (fySteps rand idxs l).Perm l
  | [], l => List.Perm.refl l
  | i :: rest, l => (fySteps_perm rand rest (swapAt l i (rand i))).trans (swapAt_perm l i (rand i))

theorem buildMindfulnessQueue_perm (pool : List Exercise) (rand : Nat → Nat) :
    (buildMindfulnessQueue pool rand).Perm (pool.map (fun e => e.id)) :=
  fySteps_perm rand _ _

theorem due_circ_agree {t : String} {rm : Nat} (hp : reminderMinutes t = some rm)
    (h1 : 360 ≤ rm) (h2 : rm ≤ 1260) {c : Nat} (hc : c < 1440) :
    (reminderDue t c = true ↔ specCircularDistance c rm ≤ 5) := by
  simp only [reminderDue, hp, specCircularDistance, decide_eq_true_eq]
  omega

/-! ## Claim theorems -/

/-- C6: a metrics save with every measurable field blank leaves the history
unchanged; with at least one field present the new entry is prepended and
the history truncated to the most recent 50 entries, evicting the oldest
once the cap is exceeded. -/
theorem c6_metrics_save (metrics : MetricsForm) (now : String) (prev : List MetricsEntry) :
    ((jsTrim metrics.bloodPressure.systolic = "" ∧ jsTrim metrics.bloodPressure.diastolic = "" ∧
      jsTrim metrics.heartRate = "" ∧ jsTrim metrics.weight = "" ∧
      jsTrim metrics.respiratoryRate = "") →
      (handleSaveMetrics metrics now prev).1 = prev) ∧
    (¬ (jsTrim metrics.bloodPressure.systolic = "" ∧ jsTrim metrics.bloodPressure.diastolic = "" ∧
        jsTrim metrics.heartRate = "" ∧ jsTrim metrics.weight = "" ∧
        jsTrim metrics.respiratoryRate = "") →
      (handleSaveMetrics metrics now prev).1 = (metricsEntryOfForm metrics now :: prev).take 50 ∧
      (handleSaveMetrics metrics now prev).1.length = min (prev.length + 1) 50 ∧
      (50 ≤ prev.length →
        (handleSaveMetrics metrics now prev).1 = metricsEntryOfForm metrics now :: prev.take 49)) := by
  have hv : entryHasValues (metricsEntryOfForm metrics now) = false ↔
      (jsTrim metrics.bloodPressure.systolic = "" ∧ jsTrim metrics.bloodPressure.diastolic = "" ∧
       jsTrim metrics.heartRate = "" ∧ jsTrim metrics.weight = "" ∧
       jsTrim metrics.respiratoryRate = "") := by
    simp [entryHasValues, metricsEntryOfForm, trimOpt]
    tauto
  constructor
  · intro hall
    simp [handleSaveMetrics, hv.mpr hall]
  · intro hne
    have hvt : entryHasValues (metricsEntryOfForm metrics now) = true := by
      rcases Bool.eq_false_or_eq_true (entryHasValues (metricsEntryOfForm metrics now)) with h | h
      · exact h
      · exact absurd (hv.mp h) hne
    refine ⟨by simp [handleSaveMetrics, hvt], ?_, ?_⟩
    · simp only [handleSaveMetrics, hvt, if_true, List.length_take, List.length_cons]
      omega
    · intro hcap
      simp [handleSaveMetrics, hvt]

/-- Witness for C6 at concrete inputs: an all-blank form is a no-op, a form
with a systolic reading prepends one entry. -/
theorem c6_witness :
    (handleSaveMetrics emptyMetricsForm "2024-01-05T08:00:00.000Z" []).1 = [] ∧
    (handleSaveMetrics
        { bloodPressure := { systolic := "120", diastolic := "" },
          heartRate := "", weight := "", respiratoryRate := "" }
        "2024-01-05T08:00:00.000Z" []).1 =
      (metricsEntryOfForm
        { bloodPressure := { systolic := "120", diastolic := "" },
          heartRate := "", weight := "", respiratoryRate := "" }
        "2024-01-05T08:00:00.000Z" :: []).take 50 :=
  ⟨(c6_metrics_save emptyMetricsForm "2024-01-05T08:00:00.000Z" []).1 (by decide),
   ((c6_metrics_save _ "2024-01-05T08:00:00.000Z" []).2 (by decide)).1⟩

/-- C7: loading the daily record returns the stored record exactly when its
date equals today, and otherwise the fresh default (all counters zero, no
walks, nothing checked); a load never yields data stored under a different
date. -/
theorem c7_load_today (stored : Option StoredToday) (today : String) :
    (∀ st, stored = some st → st.date = today → loadTodayData stored today = st.data) ∧
    (∀ st, stored = some st → st.date ≠ today → loadTodayData stored today = defaultTodayData) ∧
    (stored = none → loadTodayData stored today = defaultTodayData) ∧
    defaultTodayData.hydration = 0 ∧ defaultTodayData.walks = [] ∧
    defaultTodayData.meditationCount = 0 ∧ defaultTodayData.morningWater = false ∧
    (∀ slotPair ∈ defaultTodayData.supplements, ∀ check ∈ slotPair.2, check.2 = false) ∧
    (∀ meal ∈ defaultTodayData.meals, meal.2 = false) := by
  refine ⟨?_, ?_, ?_, rfl, rfl, rfl, rfl, by decide, by decide⟩
  · intro st hst hdate
    subst hst
    simp [loadTodayData, hdate]
  · intro st hst hdate
    subst hst
    simp [loadTodayData, hdate]
  · intro hst
    subst hst
    simp [loadTodayData]

/-- Witness for C7: a record stored under an older date is discarded, a
record stored under today's date is returned. -/
theorem c7_witness :
    loadTodayData (some { date := "2024-01-01", data := { defaultTodayData with hydration := 24 } })
      "2024-01-02" = defaultTodayData ∧
    loadTodayData (some { date := "2024-01-02", data := { defaultTodayData with hydration := 24 } })
      "2024-01-02" = { defaultTodayData with hydration := 24 } :=
  ⟨(c7_load_today _ "2024-01-02").2.1 _ rfl (by decide),
   (c7_load_today _ "2024-01-02").1 _ rfl rfl⟩

/-- C8: regenerating the mindfulness queue from a non-empty pool yields a
`currentId` plus `remainingIds` that together are a permutation of the
pool's ids — each id exactly once when the pool's ids are distinct — and
advancing a state with an exhausted queue is a no-op. -/
theorem c8_queue_permutation (pool : List Exercise) (rand : Nat → Nat)
    (today : String) (slot : Slot) (hpool : pool ≠ []) :
    ((refreshMindfulness pool rand today slot).currentId ::
      (refreshMindfulness pool rand today slot).remainingIds).Perm
        (pool.map (fun e => e.id)) ∧
    ((pool.map (fun e => e.id)).Nodup →
      ∀ x ∈ pool.map (fun e => e.id),
        ((refreshMindfulness pool rand today slot).currentId ::
          (refreshMindfulness pool rand today slot).remainingIds).count x = 1) ∧
    (∀ st : MindState, st.remainingIds = [] → advanceMindfulness st = st) := by
  have hq := buildMindfulnessQueue_perm pool rand
  have hne : buildMindfulnessQueue pool rand ≠ [] := by
    intro h
    have hlen := hq.length_eq
    rw [h, List.length_map] at hlen
    exact hpool (List.length_eq_zero.mp hlen.symm)
  obtain ⟨v, vs, hvvs⟩ := List.exists_cons_of_ne_nil hne
  have hcons : (refreshMindfulness pool rand today slot).currentId ::
      (refreshMindfulness pool rand today slot).remainingIds = buildMindfulnessQueue pool rand := by
    simp [refreshMindfulness, hvvs]
  refine ⟨hcons ▸ hq, ?_, ?_⟩
  · intro hnd x hx
    rw [hcons, hq.count_eq]
    exact List.count_eq_one_of_mem hnd hx
  · intro st hst
    simp [advanceMindfulness, hst]

/-- Witness for C8 at a concrete two-exercise pool and a concrete swap
sequence. -/
theorem c8_witness :
    ((refreshMindfulness [{ id := "a", timeOfDay := [] }, { id := "b", timeOfDay := [] }]
        (fun _ => 0) "2024-01-05" .morning).currentId ::
      (refreshMindfulness [{ id := "a", timeOfDay := [] }, { id := "b", timeOfDay := [] }]
        (fun _ => 0) "2024-01-05" .morning).remainingIds).Perm
      ([{ id := "a", timeOfDay := [] }, { id := "b", timeOfDay := [] }].map
        (fun e : Exercise => e.id)) ∧
    advanceMindfulness { date := "2024-01-05", slot := .morning, remainingIds := [], currentId := "a" } =
      { date := "2024-01-05", slot := .morning, remainingIds := [], currentId := "a" } :=
  ⟨(c8_queue_permutation _ (fun _ => 0) "2024-01-05" .morning (by decide)).1,
   (c8_queue_permutation [{ id := "a", timeOfDay := [] }, { id := "b", timeOfDay := [] }]
      (fun _ => 0) "2024-01-05" .morning (by decide)).2.2 _ rfl⟩

/-- C9: trend statistics over a window with no entries, or with no entries
carrying the selected metric, return the defined no-data result with
`count = 0` and sentinel values, never an error. -/
theorem c9_trend_no_data (history : List MetricsEntry) (m : Metric)
    (timeOf : String → ℚ) (num : String → ℚ) (startDate : ℚ) :
    (filteredEntries history timeOf startDate = [] →
      getTrendStats history m timeOf num startDate = noDataStats) ∧
    (extractedValues history m timeOf num startDate = [] →
      getTrendStats history m timeOf num startDate = noDataStats) ∧
    noDataStats.count = 0 ∧ noDataStats.latest = .sentinel ∧ noDataStats.avg = .sentinel ∧
    noDataStats.min = .sentinel ∧ noDataStats.max = .sentinel ∧ noDataStats.trend = "→" := by
  refine ⟨?_, ?_, rfl, rfl, rfl, rfl, rfl, rfl⟩
  · intro h
    simp [getTrendStats, h]
  · intro h
    unfold getTrendStats
    rw [h]
    split
    next => simp
    next x v vs heq => simp at heq

/-- Witness for C9: an empty history yields the no-data result. -/
theorem c9_witness :
    getTrendStats [] .weight (fun _ => 0) (fun _ => 0) 0 = noDataStats :=
  (c9_trend_no_data [] .weight (fun _ => 0) (fun _ => 0) 0).1 rfl

/-- Counterexample for C2: the claim asserts the due window is the minimal
circular distance with no crossing-midnight error, in particular that a
reminder scheduled at 00:02 is due at 23:58; the server computes a plain
absolute difference, so at 23:58 (minute 1438) the 00:02 reminder is not
due even though its circular distance is 4 ≤ 5. -/
theorem c2_counterexample :
    reminderDue "00:02" (23 * 60 + 58) = false ∧
    specCircularDistance (23 * 60 + 58) 2 = 4 := by
  constructor <;> decide

/-- C2 (amended): `due` is the plain window
`|currentMinutes − reminderMinutes| ≤ 5` with no midnight wraparound; for
every seeded reminder (all scheduled between 06:00 and 21:00) this
coincides with the minimal circular distance at every minute of the day;
the 08:00 examples hold, but a reminder at 00:02 is not due at 23:58. -/
theorem c2_due_window :
    (∀ (t : String) (rm : Nat), reminderMinutes t = some rm →
      ∀ c : Nat, (reminderDue t c = true ↔ ((c : Int) - rm).natAbs ≤ 5)) ∧
    (∀ r ∈ defaultReminders, ∀ c : Nat, c < 1440 →
      (reminderDue r.time c = true ↔
        specCircularDistance c ((reminderMinutes r.time).getD 0) ≤ 5)) ∧
    (reminderDue "08:00" (7 * 60 + 55) = true ∧ reminderDue "08:00" (8 * 60) = true ∧
     reminderDue "08:00" (8 * 60 + 5) = true ∧ reminderDue "08:00" (7 * 60 + 54) = false ∧
     reminderDue "08:00" (8 * 60 + 6) = false) ∧
    reminderDue "00:02" (23 * 60 + 58) = false := by
  refine ⟨?_, ?_, by refine ⟨?_, ?_, ?_, ?_, ?_⟩ <;> decide, by decide⟩
  · intro t rm hp c
    simp only [reminderDue, hp, decide_eq_true_eq]
  · intro r hr
    fin_cases hr
    · exact fun c hc => due_circ_agree (t := "10:00") (by decide) (by decide) (by decide) hc
    · exact fun c hc => due_circ_agree (t := "14:00") (by decide) (by decide) (by decide) hc
    · exact fun c hc => due_circ_agree (t := "16:30") (by decide) (by decide) (by decide) hc
    · exact fun c hc => due_circ_agree (t := "08:00") (by decide) (by decide) (by decide) hc
    · exact fun c hc => due_circ_agree (t := "10:00") (by decide) (by decide) (by decide) hc
    · exact fun c hc => due_circ_agree (t := "12:00") (by decide) (by decide) (by decide) hc
    · exact fun c hc => due_circ_agree (t := "14:00") (by decide) (by decide) (by decide) hc
    · exact fun c hc => due_circ_agree (t := "16:00") (by decide) (by decide) (by decide) hc
    · exact fun c hc => due_circ_agree (t := "18:00") (by decide) (by decide) (by decide) hc
    · exact fun c hc => due_circ_agree (t := "20:00") (by decide) (by decide) (by decide) hc
    · exact fun c hc => due_circ_agree (t := "06:00") (by decide) (by decide) (by decide) hc
    · exact fun c hc => due_circ_agree (t := "21:00") (by decide) (by decide) (by decide) hc

/-- Witness for C2 at a concrete seeded reminder and minute: the 06:00
mindfulness reminder at 23:59 agrees with the circular-distance window. -/
theorem c2_witness :
    reminderDue "06:00" 1439 = true ↔
      specCircularDistance 1439 ((reminderMinutes "06:00").getD 0) ≤ 5 :=
  c2_due_window.2.1
    { type := "mindfulness", time := "06:00", enabledByDefault := 1,
      description := "Morning mindfulness" }
    (by decide) 1439 (by decide)

/-- Counterexample for C4: the claim counts a non-2xx, non-404 response as
a transport failure that must end in the error state and leave the sync
metadata untouched; but `pushSnapshot` never checks the `POST` response,
so a sync run whose `GET` returns 404 and whose `POST` is answered with a
500 ends in the success state with `lastSyncedAt` refreshed. -/
theorem c4_counterexample :
    (syncWithServer sampleState (.bad 404) (.ok 500)
      "2024-01-06T00:00:00.000Z" "2024-01-05").state.syncStatus = .success ∧
    (syncWithServer sampleState (.bad 404) (.ok 500)
      "2024-01-06T00:00:00.000Z" "2024-01-05").state.syncMeta ≠ sampleState.syncMeta := by
  refine ⟨rfl, by decide⟩

/-- C4 (amended): every sync run that ends in a transport failure — a
network error on the `GET` or on the `POST` (on any push path), or a
non-2xx, non-404 response to the `GET` — transitions to the error state
with an operator-visible message, posts nothing, and leaves every piece of
local data (today record, reminder toggles, mindfulness state, metrics
history, sync metadata) exactly as it was; but a non-2xx response to the
snapshot `POST` goes undetected: the run reports success and refreshes
`lastSyncedAt`. -/
theorem c4_transport_failure_preserves_state (s : LocalState) (now today : String) :
    (∀ (pr : PushResult) (msg : String), msg ≠ "" →
      dataUnchanged (syncWithServer s (.netError msg) pr now today).state s ∧
      (syncWithServer s (.netError msg) pr now today).state.syncStatus = .error ∧
      (syncWithServer s (.netError msg) pr now today).state.syncError = msg ∧
      (syncWithServer s (.netError msg) pr now today).posted = none) ∧
    (∀ (pr : PushResult) (code : Nat), code ≠ 404 →
      dataUnchanged (syncWithServer s (.bad code) pr now today).state s ∧
      (syncWithServer s (.bad code) pr now today).state.syncStatus = .error ∧
      (syncWithServer s (.bad code) pr now today).state.syncError =
        "Snapshot fetch failed (" ++ toString code ++ ")" ∧
      (syncWithServer s (.bad code) pr now today).posted = none) ∧
    (∀ msg : String, msg ≠ "" →
      dataUnchanged (syncWithServer s (.bad 404) (.fail msg) now today).state s ∧
      (syncWithServer s (.bad 404) (.fail msg) now today).state.syncStatus = .error ∧
      (syncWithServer s (.bad 404) (.fail msg) now today).state.syncError = msg ∧
      (syncWithServer s (.bad 404) (.fail msg) now today).posted = none) ∧
    (∀ (u : Option String) (msg : String), msg ≠ "" →
      dataUnchanged (syncWithServer s (.ok u none) (.fail msg) now today).state s ∧
      (syncWithServer s (.ok u none) (.fail msg) now today).state.syncStatus = .error ∧
      (syncWithServer s (.ok u none) (.fail msg) now today).state.syncError = msg ∧
      (syncWithServer s (.ok u none) (.fail msg) now today).posted = none) ∧
    (∀ (snapshot : SnapshotPayload) (u msg : String), msg ≠ "" →
      s.syncMeta.updatedAt ≠ "" → u ≠ "" → jsStrLt s.syncMeta.updatedAt u = false →
      dataUnchanged
        (syncWithServer s (.ok (some u) (some snapshot)) (.fail msg) now today).state s ∧
      (syncWithServer s (.ok (some u) (some snapshot)) (.fail msg) now today).state.syncStatus =
        .error ∧
      (syncWithServer s (.ok (some u) (some snapshot)) (.fail msg) now today).state.syncError =
        msg ∧
      (syncWithServer s (.ok (some u) (some snapshot)) (.fail msg) now today).posted = none) ∧
    (∀ st : Nat,
      (syncWithServer s (.bad 404) (.ok st) now today).state.syncStatus = .success ∧
      (syncWithServer s (.bad 404) (.ok st) now today).state.syncMeta.lastSyncedAt = now) := by
  refine ⟨?_, ?_, ?_, ?_, ?_, ?_⟩
  · intro pr msg _
    refine ⟨⟨?_, ?_, ?_, ?_, ?_, ?_⟩, ?_, ?_, ?_⟩ <;> trivial
  · intro pr code hcode
    simp only [syncWithServer, if_neg hcode]
    refine ⟨⟨?_, ?_, ?_, ?_, ?_, ?_⟩, ?_, ?_, ?_⟩ <;> trivial
  · intro msg _
    simp only [syncWithServer, if_pos rfl, pushSnapshot]
    refine ⟨⟨?_, ?_, ?_, ?_, ?_, ?_⟩, ?_, ?_, ?_⟩ <;> trivial
  · intro u msg _
    simp only [syncWithServer, pushSnapshot]
    refine ⟨⟨?_, ?_, ?_, ?_, ?_, ?_⟩, ?_, ?_, ?_⟩ <;> trivial
  · intro snapshot u msg _ hl hu hnot
    have hgetD : (some u).getD "" = u := rfl
    simp only [syncWithServer, hgetD]
    rw [if_neg (by simp [hl]), if_neg (by simp [hu, hl, hnot])]
    simp only [pushSnapshot]
    refine ⟨⟨?_, ?_, ?_, ?_, ?_, ?_⟩, ?_, ?_, ?_⟩ <;> trivial
  · intro st
    simp only [syncWithServer, if_pos rfl, pushSnapshot]
    exact ⟨rfl, rfl⟩

/-- Witness for C4 (amended): at a concrete state, a failed `GET`, a failed
`POST` after a 404, and an undetected 500 `POST` response. -/
theorem c4_witness :
    (dataUnchanged
        (syncWithServer sampleState (.netError "fetch failed") (.ok 200)
          "2024-01-06T00:00:00.000Z" "2024-01-05").state sampleState ∧
      (syncWithServer sampleState (.netError "fetch failed") (.ok 200)
        "2024-01-06T00:00:00.000Z" "2024-01-05").state.syncStatus = .error) ∧
    (dataUnchanged
        (syncWithServer sampleState (.bad 500) (.ok 200)
          "2024-01-06T00:00:00.000Z" "2024-01-05").state sampleState ∧
      (syncWithServer sampleState (.bad 500) (.ok 200)
        "2024-01-06T00:00:00.000Z" "2024-01-05").state.syncStatus = .error) ∧
    (dataUnchanged
        (syncWithServer sampleState (.bad 404) (.fail "fetch failed")
          "2024-01-06T00:00:00.000Z" "2024-01-05").state sampleState ∧
      (syncWithServer sampleState (.bad 404) (.fail "fetch failed")
        "2024-01-06T00:00:00.000Z" "2024-01-05").state.syncStatus = .error) ∧
    (syncWithServer sampleState (.bad 404) (.ok 500)
      "2024-01-06T00:00:00.000Z" "2024-01-05").state.syncStatus = .success :=
  ⟨⟨((c4_transport_failure_preserves_state sampleState
        "2024-01-06T00:00:00.000Z" "2024-01-05").1 (.ok 200) "fetch failed" (by decide)).1,
    ((c4_transport_failure_preserves_state sampleState
        "2024-01-06T00:00:00.000Z" "2024-01-05").1 (.ok 200) "fetch failed" (by decide)).2.1⟩,
   ⟨((c4_transport_failure_preserves_state sampleState
        "2024-01-06T00:00:00.000Z" "2024-01-05").2.1 (.ok 200) 500 (by decide)).1,
    ((c4_transport_failure_preserves_state sampleState
        "2024-01-06T00:00:00.000Z" "2024-01-05").2.1 (.ok 200) 500 (by decide)).2.1⟩,
   ⟨((c4_transport_failure_preserves_state sampleState
        "2024-01-06T00:00:00.000Z" "2024-01-05").2.2.1 "fetch failed" (by decide)).1,
    ((c4_transport_failure_preserves_state sampleState
        "2024-01-06T00:00:00.000Z" "2024-01-05").2.2.1 "fetch failed" (by decide)).2.1⟩,
   ((c4_transport_failure_preserves_state sampleState
        "2024-01-06T00:00:00.000Z" "2024-01-05").2.2.2.2.2 500).1⟩

/-- Counterexample for C1: with a local `updatedAt` recorded and a fetched
payload carrying data but an empty `updatedAt` stamp — a stamp not
strictly greater than the local one — the claim says the engine pushes and
does not overwrite local state; the code instead applies the remote
snapshot (no POST is made and the local reminder toggles are replaced). -/
theorem c1_counterexample :
    sampleState.syncMeta.updatedAt ≠ "" ∧
    (syncWithServer sampleState (.ok (some "") (some sampleRemoteSnapshot)) (.ok 200)
      "2024-01-06T00:00:00.000Z" "2024-01-05").posted = none ∧
    (syncWithServer sampleState (.ok (some "") (some sampleRemoteSnapshot)) (.ok 200)
      "2024-01-06T00:00:00.000Z" "2024-01-05").state.walkReminders ≠
      sampleState.walkReminders := by
  refine ⟨by decide, rfl, by decide⟩

/-- C1 (amended): when a local `updatedAt` is recorded and the remote
payload carries data with a non-empty `updatedAt` that is not strictly
greater than the local one, the engine pushes the local snapshot via POST
under the local stamp, refreshes `lastSyncedAt`, and leaves all local data
untouched. -/
theorem c1_push_when_remote_not_newer (s : LocalState) (snapshot : SnapshotPayload)
    (u now today : String) (postStatus : Nat)
    (hl : s.syncMeta.updatedAt ≠ "") (hu : u ≠ "")
    (hnot : jsStrLt s.syncMeta.updatedAt u = false) :
    (syncWithServer s (.ok (some u) (some snapshot)) (.ok postStatus) now today).posted =
      some { updatedAt := s.syncMeta.updatedAt, data := buildSnapshot s today } ∧
    (syncWithServer s (.ok (some u) (some snapshot)) (.ok postStatus) now today).state =
      { s with syncMeta := { updatedAt := s.syncMeta.updatedAt, lastSyncedAt := now },
               syncStatus := .success, syncError := "" } := by
  have hgetD : (some u).getD "" = u := rfl
  simp only [syncWithServer, hgetD]
  rw [if_neg (by simp [hl]), if_neg (by simp [hu, hl, hnot])]
  simp only [pushSnapshot, if_neg hl]
  constructor <;> trivial

/-- Witness for C1 (amended) at a concrete state and an older remote stamp. -/
theorem c1_witness :
    (syncWithServer sampleState
        (.ok (some "2024-01-01T00:00:00.000Z") (some sampleRemoteSnapshot)) (.ok 200)
        "2024-01-06T00:00:00.000Z" "2024-01-05").posted =
      some { updatedAt := sampleState.syncMeta.updatedAt,
             data := buildSnapshot sampleState "2024-01-05" } ∧
    (syncWithServer sampleState
        (.ok (some "2024-01-01T00:00:00.000Z") (some sampleRemoteSnapshot)) (.ok 200)
        "2024-01-06T00:00:00.000Z" "2024-01-05").state =
      { sampleState with
          syncMeta := { updatedAt := sampleState.syncMeta.updatedAt,
                        lastSyncedAt := "2024-01-06T00:00:00.000Z" },
          syncStatus := .success, syncError := "" } :=
  c1_push_when_remote_not_newer sampleState sampleRemoteSnapshot
    "2024-01-01T00:00:00.000Z" "2024-01-06T00:00:00.000Z" "2024-01-05" 200
    (by decide) (by decide) (by decide)

/-- Counterexample for C3: on a first run (no local `updatedAt`) with a
remote snapshot stamped `2024-01-02T10:00:00.000Z`, the claim says the
remote timestamp is recorded as `lastSyncedAt` and the resulting local
snapshot equals the remote one; the code records the current wall-clock
time as `lastSyncedAt` instead, and a remote `today` for a stale date is
not imported, so the local today record is not the remote one. -/
theorem c3_counterexample :
    ({ sampleState with syncMeta := { updatedAt := "", lastSyncedAt := "" } } :
        LocalState).syncMeta.updatedAt = "" ∧
    (syncWithServer { sampleState with syncMeta := { updatedAt := "", lastSyncedAt := "" } }
        (.ok (some "2024-01-02T10:00:00.000Z") (some staleRemoteSnapshot)) (.ok 200)
        "2024-01-06T00:00:00.000Z" "2024-01-06").state.syncMeta.lastSyncedAt ≠
      "2024-01-02T10:00:00.000Z" ∧
    (syncWithServer { sampleState with syncMeta := { updatedAt := "", lastSyncedAt := "" } }
        (.ok (some "2024-01-02T10:00:00.000Z") (some staleRemoteSnapshot)) (.ok 200)
        "2024-01-06T00:00:00.000Z" "2024-01-06").state.todayData ≠
      { defaultTodayData with hydration := 16 } := by
  refine ⟨rfl, by decide, by decide⟩

/-- C3 (amended): on a first run (no local `updatedAt`) with a non-empty
remote stamp, the engine applies the remote snapshot locally — each
component when present, the today record when its date equals the current
date — records the remote timestamp as the local `updatedAt`, and sets
`lastSyncedAt` to the current wall-clock time; under those conditions the
resulting local components equal the remote ones and nothing is posted. -/
theorem c3_first_run_applies_remote (s : LocalState) (snapshot : SnapshotPayload)
    (u now today : String) (pr : PushResult)
    (hl : s.syncMeta.updatedAt = "") (hu : u ≠ "")
    (td : TodayData) (ht : snapshot.today = some { date := today, data := td })
    (r : List ReminderToggle) (hr : snapshot.reminders = some r)
    (mi : MindState) (hm : snapshot.mindfulness = some mi)
    (mh : List MetricsEntry) (hh : snapshot.metricsHistory = some mh) :
    (syncWithServer s (.ok (some u) (some snapshot)) pr now today).state =
      { storedToday := some { date := today, data := td }, todayData := td,
        walkReminders := r, mindfulness := mi, metricsHistory := mh,
        syncMeta := { updatedAt := u, lastSyncedAt := now },
        syncStatus := .success, syncError := "" } ∧
    (syncWithServer s (.ok (some u) (some snapshot)) pr now today).posted = none := by
  have hgetD : (some u).getD "" = u := rfl
  simp only [syncWithServer, hgetD]
  rw [if_pos ⟨hl, hu⟩]
  simp only [applySnapshot, ht, hr, hm, hh, if_pos rfl]
  constructor <;> trivial

/-- Witness for C3 (amended) at a concrete first-run state and remote
snapshot dated today. -/
theorem c3_witness :
    (syncWithServer { sampleState with syncMeta := { updatedAt := "", lastSyncedAt := "" } }
        (.ok (some "2024-01-02T10:00:00.000Z") (some sampleRemoteSnapshot)) (.ok 200)
        "2024-01-06T00:00:00.000Z" "2024-01-05").state =
      { storedToday := some { date := "2024-01-05", data := { defaultTodayData with hydration := 24 } },
        todayData := { defaultTodayData with hydration := 24 },
        walkReminders := [{ time := "2:00 PM", label := "Afternoon walk", enabled := false }],
        mindfulness := { date := "2024-01-05", slot := .evening, remainingIds := [], currentId := "c" },
        metricsHistory := [],
        syncMeta := { updatedAt := "2024-01-02T10:00:00.000Z",
                      lastSyncedAt := "2024-01-06T00:00:00.000Z" },
        syncStatus := .success, syncError := "" } :=
  (c3_first_run_applies_remote
    { sampleState with syncMeta := { updatedAt := "", lastSyncedAt := "" } }
    sampleRemoteSnapshot "2024-01-02T10:00:00.000Z" "2024-01-06T00:00:00.000Z"
    "2024-01-05" (.ok 200) rfl (by decide) _ rfl _ rfl _ rfl _ rfl).1

/-- C5: when both timestamps are recorded and the remote `updatedAt` is
strictly greater, the remote snapshot is applied: present reminder
toggles, mindfulness state and metrics history replace the local ones
unconditionally, while the today record is overwritten exactly when the
remote snapshot's `today.date` equals the client's current date, and left
untouched otherwise; nothing is posted and the run succeeds. -/
theorem c5_remote_newer_applies (s : LocalState) (snapshot : SnapshotPayload)
    (u now today : String) (pr : PushResult)
    (hl : s.syncMeta.updatedAt ≠ "") (hu : u ≠ "")
    (hnewer : jsStrLt s.syncMeta.updatedAt u = true)
    (r : List ReminderToggle) (hr : snapshot.reminders = some r)
    (mi : MindState) (hm : snapshot.mindfulness = some mi)
    (mh : List MetricsEntry) (hh : snapshot.metricsHistory = some mh)
    (t : StoredToday) (ht : snapshot.today = some t) :
    (syncWithServer s (.ok (some u) (some snapshot)) pr now today).state.walkReminders = r ∧
    (syncWithServer s (.ok (some u) (some snapshot)) pr now today).state.metricsHistory = mh ∧
    (syncWithServer s (.ok (some u) (some snapshot)) pr now today).state.mindfulness = mi ∧
    (t.date = today →
      (syncWithServer s (.ok (some u) (some snapshot)) pr now today).state.todayData = t.data ∧
      (syncWithServer s (.ok (some u) (some snapshot)) pr now today).state.storedToday =
        some { date := today, data := t.data }) ∧
    (t.date ≠ today →
      (syncWithServer s (.ok (some u) (some snapshot)) pr now today).state.todayData =
        s.todayData ∧
      (syncWithServer s (.ok (some u) (some snapshot)) pr now today).state.storedToday =
        s.storedToday) ∧
    (syncWithServer s (.ok (some u) (some snapshot)) pr now today).state.syncMeta =
      { updatedAt := u, lastSyncedAt := now } ∧
    (syncWithServer s (.ok (some u) (some snapshot)) pr now today).state.syncStatus = .success ∧
    (syncWithServer s (.ok (some u) (some snapshot)) pr now today).posted = none := by
  have hgetD : (some u).getD "" = u := rfl
  simp only [syncWithServer, hgetD]
  rw [if_neg (by simp [hl]), if_pos (Or.inr (Or.inr hnewer))]
  rw [if_neg hu]
  simp only [applySnapshot, ht, hr, hm, hh]
  refine ⟨by trivial, by trivial, by trivial, ?_, ?_, by trivial, by trivial, by trivial⟩
  · intro hd
    rw [if_pos hd]
    constructor <;> trivial
  · intro hd
    rw [if_neg hd]
    constructor <;> trivial

/-- Witness for C5 at a concrete newer remote snapshot whose today matches
the current date. -/
theorem c5_witness :
    (syncWithServer sampleState
        (.ok (some "2024-01-06T10:00:00.000Z") (some sampleRemoteSnapshot)) (.ok 200)
        "2024-01-06T12:00:00.000Z" "2024-01-05").state.walkReminders =
      [{ time := "2:00 PM", label := "Afternoon walk", enabled := false }] ∧
    (syncWithServer sampleState
        (.ok (some "2024-01-06T10:00:00.000Z") (some sampleRemoteSnapshot)) (.ok 200)
        "2024-01-06T12:00:00.000Z" "2024-01-05").state.todayData =
      { defaultTodayData with hydration := 24 } :=
  ⟨(c5_remote_newer_applies sampleState sampleRemoteSnapshot "2024-01-06T10:00:00.000Z"
      "2024-01-06T12:00:00.000Z" "2024-01-05" (.ok 200) (by decide) (by decide) (by decide)
      _ rfl _ rfl _ rfl _ rfl).1,
   ((c5_remote_newer_applies sampleState sampleRemoteSnapshot "2024-01-06T10:00:00.000Z"
      "2024-01-06T12:00:00.000Z" "2024-01-05" (.ok 200) (by decide) (by decide) (by decide)
      _ rfl _ rfl _ rfl _ rfl).2.2.2.1 rfl).1⟩

/-- C10: `POST /api/snapshot` with a missing or falsy `data` field responds
400 and leaves the stored row unchanged; otherwise the row is upserted and
the stored and echoed stamp is the request's `updatedAt` when that is a
non-empty string and the current wall-clock time otherwise, so the stored
row always carries a non-empty timestamp. -/
theorem c10_snapshot_post (row : Option SnapRow) (updatedAt data : JsVal) (now : String) :
    (truthy data = false → postSnapshot row updatedAt data now = (row, 400, none)) ∧
    (truthy data = true →
      postSnapshot row updatedAt data now =
        (some { payload := data, updated_at := snapshotStamp updatedAt now }, 200,
         some (snapshotStamp updatedAt now))) ∧
    (∀ u, updatedAt = .str u → u ≠ "" → snapshotStamp updatedAt now = u) ∧
    ((updatedAt = .undef ∨ updatedAt = .null ∨ updatedAt = .str "" ∨
        (∀ u, updatedAt ≠ .str u)) →
      snapshotStamp updatedAt now = now) ∧
    (now ≠ "" → snapshotStamp updatedAt now ≠ "") := by
  refine ⟨?_, ?_, ?_, ?_, ?_⟩
  · intro h
    simp [postSnapshot, h]
  · intro h
    simp [postSnapshot, h]
  · intro u hu hne
    subst hu
    simp [snapshotStamp, hne]
  · intro h
    rcases h with h | h | h | h
    · subst h; rfl
    · subst h; rfl
    · subst h; simp [snapshotStamp]
    · cases updatedAt <;> first | rfl | exact absurd rfl (h _)
  · intro hn
    cases updatedAt <;> simp [snapshotStamp, hn]
    rename_i u
    split_ifs with hu
    · exact hn
    · exact hu

/-- Witness for C10: a falsy `data` is rejected leaving the row unchanged,
and a snapshot posted with a null `updatedAt` is stored under the
wall-clock stamp. -/
theorem c10_witness :
    postSnapshot none (.str "2024-01-05T08:00:00.000Z") .null "2024-01-06T00:00:00.000Z" =
      (none, 400, none) ∧
    postSnapshot none .null (.obj sampleRemoteSnapshot) "2024-01-06T00:00:00.000Z" =
      (some { payload := .obj sampleRemoteSnapshot,
              updated_at := snapshotStamp .null "2024-01-06T00:00:00.000Z" }, 200,
       some (snapshotStamp .null "2024-01-06T00:00:00.000Z")) ∧
    snapshotStamp .null "2024-01-06T00:00:00.000Z" = "2024-01-06T00:00:00.000Z" :=
  ⟨(c10_snapshot_post none (.str "2024-01-05T08:00:00.000Z") .null
      "2024-01-06T00:00:00.000Z").1 rfl,
   (c10_snapshot_post none .null (.obj sampleRemoteSnapshot)
      "2024-01-06T00:00:00.000Z").2.1 rfl,
   (c10_snapshot_post none .null (.obj sampleRemoteSnapshot)
      "2024-01-06T00:00:00.000Z").2.2.2.1 (Or.inr (Or.inl rfl))⟩
